import Mathlib

/-!
Verification development for the certificate generator in
`py_generate_cert.py`.

The program builds a self-signed X.509 certificate: it generates an RSA
key, assembles subject/issuer distinguished names, resolves the Subject
Alternative Name (SAN) list (classifying each raw SAN string as an IP
address literal or a DNS name, with first-occurrence deduplication and
implicit loopback entries for the hostname "localhost"), sets the
validity window from two successive clock readings, attaches the SAN and
KeyUsage extensions, signs, and writes the key and certificate files.

The definitions below are a shallow embedding of that program.  The
string-classification semantics of `ipaddress.ip_address` (tried by
`parse_san`) is embedded faithfully from the Python standard library
parser it delegates to: a dotted-quad IPv4 parser (four decimal octets,
each at most 255, no leading zeros) and the hextet/`::`-compression IPv6
parser (with optional `%scope`), since the observable behaviour of
`parse_san` is exactly that parser's accept/reject behaviour.  Validity
times are modelled as integer seconds; the two `datetime.utcnow()` calls
on lines 148-149 become two separate clock parameters `t1` and `t2`.
Checks performed by the `cryptography` library functions that the script
calls (RSA parameter validation, country-code length in `NameAttribute`,
the `not_valid_after`/`not_valid_before` ordering check of
`CertificateBuilder`) are part of those calls' semantics and are embedded
where the script invokes them.
-/

namespace Certfun

/-- Character classifier for decimal digits, as used by the Python
`ipaddress` octet parser (`str.isdigit` restricted to ASCII). -/
def isDigitChar (c : Char) : Bool := '0' ≤ c && c ≤ '9'

/-- Character classifier for hexadecimal digits
(`frozenset('0123456789ABCDEFabcdef')` in `ipaddress`). -/
def isHexChar (c : Char) : Bool :=
  isDigitChar c || ('a' ≤ c && c ≤ 'f') || ('A' ≤ c && c ≤ 'F')

/-- Numeric value of a decimal digit character. -/
def digitVal (c : Char) : Nat := c.toNat - 48

/-- Numeric value of a hexadecimal digit character. -/
def hexVal (c : Char) : Nat :=
  if isDigitChar c then c.toNat - 48
  else if 'a' ≤ c && c ≤ 'f' then c.toNat - 87
  else c.toNat - 55

/-- Decimal value of a digit string (`int(s, 10)` on an all-digit string). -/
def decValue (s : List Char) : Nat := s.foldl (fun n c => n * 10 + digitVal c) 0

/-- Hexadecimal value of a hex-digit string (`int(s, 16)` on an all-hex string). -/
def hexValue (s : List Char) : Nat := s.foldl (fun n c => n * 16 + hexVal c) 0

/-- Split a character list at every occurrence of `c`, keeping empty
pieces, exactly like Python `str.split` with an explicit separator
(so the empty string splits to one empty piece). -/
def splitOnChar (c : Char) : List Char → List (List Char)
  | [] => [[]]
  | x :: xs =>
    if x = c then [] :: splitOnChar c xs
    else
      match splitOnChar c xs with
      | [] => [[x]]
      | p :: ps => (x :: p) :: ps

/-- Split at the first occurrence of `c`, like Python `str.partition`:
returns the part before and, when `c` occurs, the part after. -/
def partitionChar (c : Char) : List Char → List Char × Option (List Char)
  | [] => ([], none)
  | x :: xs =>
    if x = c then ([], some xs)
    else
      let r := partitionChar c xs
      (x :: r.1, r.2)

/-- Parse one IPv4 octet, following `IPv4Address._parse_octet`: non-empty,
ASCII digits only, at most 3 characters, no leading zero, value at most
255. -/
def parse_octet (s : List Char) : Option Nat :=
  if s.isEmpty then none
  else if !(s.all isDigitChar) then none
  else if s.length > 3 then none
  else if s.length > 1 && s.headD '0' = '0' then none
  else
    let n := decValue s
    if n > 255 then none else some n

/-- Parse a dotted-quad IPv4 address, following
`IPv4Address._ip_int_from_string`: exactly four octets separated by dots,
packed big-endian into a 32-bit value. -/
def parse_ipv4 (s : List Char) : Option Nat :=
  let parts := splitOnChar '.' s
  if parts.length ≠ 4 then none
  else
    match parts.mapM parse_octet with
    | some [a, b, c, d] => some (((a * 256 + b) * 256 + c) * 256 + d)
    | _ => none

/-- Parse one IPv6 hextet, following `IPv6Address._parse_hextet`:
non-empty, hex digits only, at most 4 characters. -/
def parse_hextet (s : List Char) : Option Nat :=
  if s.isEmpty then none
  else if !(s.all isHexChar) then none
  else if s.length > 4 then none
  else some (hexValue s)

/-- A colon-separated IPv6 part: either a raw substring of the input, or
the numeric hextet appended by the trailing-IPv4 expansion step (Python
appends `'%x' % v`, a non-empty hex string that parses back to `v`). -/
inductive PPart where
  | str (s : List Char)
  | num (n : Nat)
deriving DecidableEq, Repr

/-- Whether a part is the empty string (only raw parts can be empty). -/
def ppartEmpty : PPart → Bool
  | .str s => s.isEmpty
  | .num _ => false

/-- Hextet value of a part. -/
def ppartHextet : PPart → Option Nat
  | .str s => parse_hextet s
  | .num n => some n

/-- Expand a trailing embedded IPv4 address ("if '.' in parts[-1]"):
the last part is replaced by its two 16-bit halves. -/
def expandV4 (parts : List (List Char)) : Option (List PPart) :=
  match parts.getLast? with
  | none => none
  | some lastPart =>
    if lastPart.contains '.' then
      match parse_ipv4 lastPart with
      | none => none
      | some v =>
        some ((parts.dropLast).map PPart.str ++ [PPart.num (v / 65536), PPart.num (v % 65536)])
    else some (parts.map PPart.str)

/-- Index (counting from 1) of the first empty part in a list of interior
parts, if any. -/
def findEmptyIdx : List PPart → Nat → Option Nat
  | [], _ => none
  | p :: ps, i => if ppartEmpty p then some i else findEmptyIdx ps (i + 1)

/-- Number of empty parts. -/
def countEmpty (l : List PPart) : Nat := (l.filter ppartEmpty).length

/-- Accumulate hextet values big-endian, starting from `init`. -/
def foldHextets (init : Nat) (l : List PPart) : Option Nat :=
  l.foldlM (fun acc p => (ppartHextet p).map (fun h => acc * 65536 + h)) init

/-- Assemble the 128-bit value from the split parts, following the body of
`IPv6Address._ip_int_from_string` after the minimum-parts check and the
trailing-IPv4 expansion: at most 9 parts, at most one interior empty part
(the `::` gap), leading/trailing empty parts only against the gap, and at
least one zero group skipped by the gap. -/
def parse_ipv6_parts (parts : List PPart) : Option Nat :=
  if parts.length > 9 then none
  else
    let n := parts.length
    let hd := parts.headD (PPart.num 0)
    let lastPart := parts.getLastD (PPart.num 0)
    let interior := (parts.drop 1).take (n - 2)
    if countEmpty interior ≥ 2 then none
    else
      match findEmptyIdx interior 1 with
      | some i =>
        let parts_hi := if ppartEmpty hd then i - 1 else i
        let parts_lo0 := n - i - 1
        let parts_lo := if ppartEmpty lastPart then parts_lo0 - 1 else parts_lo0
        if ppartEmpty hd && parts_hi ≠ 0 then none
        else if ppartEmpty lastPart && parts_lo ≠ 0 then none
        else if parts_hi + parts_lo > 7 then none
        else
          let skipped := 8 - (parts_hi + parts_lo)
          match foldHextets 0 (parts.take parts_hi) with
          | none => none
          | some hi => foldHextets (hi * 65536 ^ skipped) (parts.drop (n - parts_lo))
      | none =>
        if n ≠ 8 then none
        else if ppartEmpty hd then none
        else if ppartEmpty lastPart then none
        else foldHextets 0 parts

/-- Parse an IPv6 address body (no scope), following
`IPv6Address._ip_int_from_string`: non-empty, at least 3 colon-separated
parts, optional trailing embedded IPv4. -/
def parse_ipv6_core (s : List Char) : Option Nat :=
  if s.isEmpty then none
  else
    let parts := splitOnChar ':' s
    if parts.length < 3 then none
    else
      match expandV4 parts with
      | none => none
      | some pparts => parse_ipv6_parts pparts

/-- An IP address value as produced by `ipaddress.ip_address`: a packed
IPv4 value, or a packed IPv6 value with an optional scope identifier.
Equality is structural, matching `IPv4Address.__eq__` /
`IPv6Address.__eq__` (packed value, and scope for v6; a v4 and a v6
address are never equal). -/
inductive IPAddr where
  | v4 (addr : Nat)
  | v6 (addr : Nat) (scope : Option String)
deriving DecidableEq, Repr

/-- Parse an IPv6 address with optional `%scope` suffix, following
`IPv6Address._split_scope_id`: the scope, when the separator is present,
must be non-empty and contain no further `%`. -/
def parse_ipv6 (s : List Char) : Option IPAddr :=
  match partitionChar '%' s with
  | (addr, none) => (parse_ipv6_core addr).map (fun v => IPAddr.v6 v none)
  | (addr, some scope) =>
    if scope.isEmpty || scope.contains '%' then none
    else (parse_ipv6_core addr).map (fun v => IPAddr.v6 v (some (String.mk scope)))

/-- The classification performed by `ipaddress.ip_address(s)` on a string:
try IPv4 first, then IPv6; `none` models the `ValueError` raised when
neither parser accepts. -/
def ip_address (s : String) : Option IPAddr :=
  match parse_ipv4 s.data with
  | some v => some (IPAddr.v4 v)
  | none => parse_ipv6 s.data

-- sanity checks on concrete inputs (mirroring Python behaviour)
example : ip_address "10.0.0.5" = some (IPAddr.v4 167772165) := by rfl
example : ip_address "127.0.0.1" = some (IPAddr.v4 2130706433) := by rfl
example : ip_address "::1" = some (IPAddr.v6 1 none) := by rfl
example : ip_address "example.com" = none := by rfl
example : ip_address "*.example.com" = none := by rfl
example : ip_address "LOCALHOST" = none := by rfl
example : ip_address "256.0.0.1" = none := by rfl
example : ip_address "::" = some (IPAddr.v6 0 none) := by rfl
example : ip_address "0:0:0:0:0:0:0:1" = some (IPAddr.v6 1 none) := by rfl
example : ip_address "::ffff:1.2.3.4" = some (IPAddr.v6 281470698652420 none) := by rfl

/-- A SAN entry: `x509.DNSName` or `x509.IPAddress`.  Equality is
structural (same constructor, same value), matching the `__eq__`
implementations used by the Python `in` test on line 129. -/
inductive GeneralName where
  | DNSName (value : String)
  | IPAddress (value : IPAddr)
deriving DecidableEq, Repr

/-- The function `parse_san` (lines 82-90): try `ipaddress.ip_address`;
on success wrap in `IPAddress`, on `ValueError` fall back to `DNSName`
with no further validation. -/
def parse_san (san_value : String) : GeneralName :=
  match ip_address san_value with
  | some ip => GeneralName.IPAddress ip
  | none => GeneralName.DNSName san_value

/-- The value of `ipaddress.ip_address('127.0.0.1')` (line 121). -/
def ipv4_loopback : IPAddr := IPAddr.v4 2130706433

/-- The value of `ipaddress.ip_address('::1')` (line 122). -/
def ipv6_loopback : IPAddr := IPAddr.v6 1 none

theorem ip_address_loopback4 : ip_address "127.0.0.1" = some ipv4_loopback := by rfl

theorem ip_address_loopback6 : ip_address "::1" = some ipv6_loopback := by rfl

/-- One iteration of the loop on lines 127-130: parse the raw SAN string
and append it unless a structurally equal entry is already present. -/
def addSan (acc : List GeneralName) (san : String) : List GeneralName :=
  let san_obj := parse_san san
  if san_obj ∈ acc then acc else acc ++ [san_obj]

/-- SAN list construction (lines 116-130): start with
`DNSName(hostname)`, append the two loopback `IPAddress` entries when the
hostname is exactly `"localhost"`, then fold the raw SAN strings through
`addSan` in input order.  (An absent `--san` option and an empty list
both contribute nothing.) -/
def build_san_list (hostname : String) (sans : List String) : List GeneralName :=
  let san_list := [GeneralName.DNSName hostname]
  let san_list :=
    if hostname = "localhost" then
      san_list ++ [GeneralName.IPAddress ipv4_loopback, GeneralName.IPAddress ipv6_loopback]
    else san_list
  sans.foldl addSan san_list

/-- Distinguished-name attribute types used on lines 108-112. -/
inductive AttrType where
  | COUNTRY_NAME
  | STATE_OR_PROVINCE_NAME
  | LOCALITY_NAME
  | ORGANIZATION_NAME
  | COMMON_NAME
deriving DecidableEq, Repr

/-- The inputs `generate_certificate` reads from `args`. -/
structure CertArgs where
  hostname : String
  days : Int
  size : Nat
  country : String
  state : String
  city : String
  org : String
  sans : List String
deriving DecidableEq, Repr

/-- `x509.NameAttribute(oid, value)`: the library validates that a
COUNTRY_NAME value is exactly two UTF-8 bytes; other attribute types
accept any string here. -/
def nameAttribute (oid : AttrType) (value : String) : Except String (AttrType × String) :=
  if oid = AttrType.COUNTRY_NAME ∧ value.utf8ByteSize ≠ 2 then
    Except.error "Country name must be a 2 character country code"
  else Except.ok (oid, value)

/-- The `x509.Name([...])` construction on lines 107-113: the five
attributes in source order country, state/province, locality,
organization, common-name. -/
def x509_Name (args : CertArgs) : Except String (List (AttrType × String)) := do
  let a1 ← nameAttribute AttrType.COUNTRY_NAME args.country
  let a2 ← nameAttribute AttrType.STATE_OR_PROVINCE_NAME args.state
  let a3 ← nameAttribute AttrType.LOCALITY_NAME args.city
  let a4 ← nameAttribute AttrType.ORGANIZATION_NAME args.org
  let a5 ← nameAttribute AttrType.COMMON_NAME args.hostname
  pure [a1, a2, a3, a4, a5]

/-- The attribute list the source spells out, before validation. -/
def nameList (args : CertArgs) : List (AttrType × String) :=
  [(AttrType.COUNTRY_NAME, args.country),
   (AttrType.STATE_OR_PROVINCE_NAME, args.state),
   (AttrType.LOCALITY_NAME, args.city),
   (AttrType.ORGANIZATION_NAME, args.org),
   (AttrType.COMMON_NAME, args.hostname)]

/-- An RSA key pair, abstracted to its size (the only attribute the rest
of the program observes). -/
structure KeyPair where
  size : Nat
deriving DecidableEq, Repr

/-- `rsa.generate_private_key(public_exponent, key_size)` (lines
101-104): the library's `_verify_rsa_parameters` accepts only public
exponents 3 and 65537 and rejects key sizes below 512 bits. -/
def generate_private_key (public_exponent : Nat) (key_size : Nat) : Except String KeyPair :=
  if public_exponent ≠ 3 ∧ public_exponent ≠ 65537 then
    Except.error "public_exponent must be either 3 (for legacy purposes) or 65537"
  else if key_size < 512 then
    Except.error "key_size must be at least 512-bits."
  else Except.ok { size := key_size }

/-- The `x509.KeyUsage` bit record (lines 158-168), fields in the
constructor's order. -/
structure KeyUsage where
  digital_signature : Bool
  content_commitment : Bool
  key_encipherment : Bool
  data_encipherment : Bool
  key_agreement : Bool
  key_cert_sign : Bool
  crl_sign : Bool
  encipher_only : Bool
  decipher_only : Bool
deriving DecidableEq, Repr

/-- The KeyUsage value the source constructs: digitalSignature and
keyEncipherment set, every other bit false. -/
def certKeyUsage : KeyUsage :=
  { digital_signature := true
    key_encipherment := true
    content_commitment := false
    data_encipherment := false
    key_agreement := false
    key_cert_sign := false
    crl_sign := false
    encipher_only := false
    decipher_only := false }

/-- An extension value: one of the two extensions the source adds. -/
inductive ExtensionValue where
  | subjectAlternativeName (sans : List GeneralName)
  | keyUsage (ku : KeyUsage)
deriving DecidableEq, Repr

/-- An extension together with its criticality flag. -/
structure Extension where
  value : ExtensionValue
  critical : Bool
deriving DecidableEq, Repr

/-- The signed certificate, with validity times in integer seconds (the
granularity of the X.509 encoding). -/
structure Certificate where
  subject : List (AttrType × String)
  issuer : List (AttrType × String)
  public_key_size : Nat
  serial_number : Nat
  not_valid_before : Int
  not_valid_after : Int
  extensions : List Extension
deriving DecidableEq, Repr

/-- `_EARLIEST_UTC_TIME` (1950-01-01) of the certificate builder, in
seconds relative to the Unix epoch. -/
def earliest_utc_time : Int := -631152000

/-- The function `generate_certificate` (lines 93-172), up to and
including signing.  `t1` and `t2` are the values of the two successive
`datetime.datetime.utcnow()` calls on lines 148 and 149, in seconds;
`serial` is the value drawn by `x509.random_serial_number()`.  Errors
model the exceptions raised by the called library functions: RSA
parameter validation in key generation, country-code length in
`NameAttribute`, and the `CertificateBuilder` checks that each validity
bound is no earlier than 1950 and that notAfter is not before notBefore.
`Except.error` propagates to `main`, which prints the message and exits
with status 1 (lines 208-212). -/
def generate_certificate (args : CertArgs) (t1 t2 : Int) (serial : Nat) :
    Except String Certificate :=
  match generate_private_key 65537 args.size with
  | Except.error e => Except.error e
  | Except.ok key =>
    match x509_Name args with
    | Except.error e => Except.error e
    | Except.ok subject =>
      let san_list := build_san_list args.hostname args.sans
      if t1 < earliest_utc_time then
        Except.error "The not valid before date must be on or after 1950 January 1."
      else
        let nva := t2 + args.days * 86400
        if nva < earliest_utc_time then
          Except.error "The not valid after date must be on or after 1950 January 1."
        else if nva < t1 then
          Except.error "The not valid after date must be after the not valid before date."
        else
          Except.ok
            { subject := subject
              issuer := subject
              public_key_size := key.size
              serial_number := serial
              not_valid_before := t1
              not_valid_after := nva
              extensions :=
                [⟨ExtensionValue.subjectAlternativeName san_list, false⟩,
                 ⟨ExtensionValue.keyUsage certKeyUsage, true⟩] }

/-- The SAN entries recorded in a certificate's SubjectAlternativeName
extensions. -/
def sanListOf (cert : Certificate) : List GeneralName :=
  cert.extensions.foldr
    (fun e acc =>
      match e.value with
      | ExtensionValue.subjectAlternativeName sl => sl ++ acc
      | ExtensionValue.keyUsage _ => acc)
    []

/-- The default CLI arguments (lines 38-57). -/
def sampleArgs : CertArgs :=
  { hostname := "localhost"
    days := 365
    size := 2048
    country := "US"
    state := "State"
    city := "City"
    org := "Local"
    sans := [] }

/-- The certificate produced from the default arguments with both clock
readings at the epoch and serial 1. -/
def sampleCert : Certificate :=
  { subject := nameList sampleArgs
    issuer := nameList sampleArgs
    public_key_size := 2048
    serial_number := 1
    not_valid_before := 0
    not_valid_after := 31536000
    extensions :=
      [⟨ExtensionValue.subjectAlternativeName
          [GeneralName.DNSName "localhost",
           GeneralName.IPAddress ipv4_loopback,
           GeneralName.IPAddress ipv6_loopback], false⟩,
       ⟨ExtensionValue.keyUsage certKeyUsage, true⟩] }

theorem sample_ok : generate_certificate sampleArgs 0 0 1 = Except.ok sampleCert := by rfl

/-- Reference formulation of first-occurrence deduplication: emit each
entry not already seen, in order, remembering it; skip entries already
seen. -/
def dedupKeepFirst (seen : List GeneralName) : List GeneralName → List GeneralName
  | [] => []
  | x :: xs =>
    if x ∈ seen then dedupKeepFirst seen xs
    else x :: dedupKeepFirst (seen ++ [x]) xs

/-- The append-if-absent fold of lines 126-130 computes exactly the
first-occurrence deduplication of the parsed SAN entries, appended after
the starting list. -/
theorem foldl_addSan_eq (l : List String) :
    ∀ acc : List GeneralName,
      l.foldl addSan acc = acc ++ dedupKeepFirst acc (l.map parse_san) := by
  induction l with
  | nil => intro acc; simp [dedupKeepFirst]
  | cons s ss ih =>
    intro acc
    by_cases h : parse_san s ∈ acc
    · have ha : addSan acc s = acc := by simp [addSan, h]
      simp only [List.foldl_cons, List.map_cons, ha, dedupKeepFirst, if_pos h]
      exact ih acc
    · have ha : addSan acc s = acc ++ [parse_san s] := by simp [addSan, h]
      simp only [List.foldl_cons, List.map_cons, ha, dedupKeepFirst, if_neg h]
      rw [ih (acc ++ [parse_san s])]
      simp

/-- First-occurrence deduplication preserves the no-duplicates invariant
of the accumulated list. -/
theorem nodup_dedup_append (l : List GeneralName) :
    ∀ seen : List GeneralName, seen.Nodup → (seen ++ dedupKeepFirst seen l).Nodup := by
  induction l with
  | nil => intro seen h; simpa [dedupKeepFirst] using h
  | cons x xs ih =>
    intro seen h
    by_cases hx : x ∈ seen
    · simpa [dedupKeepFirst, hx] using ih seen h
    · have h2 : (seen ++ [x]).Nodup := by
        rw [List.nodup_append]
        refine ⟨h, List.nodup_singleton x, ?_⟩
        intro a ha hax
        rw [List.mem_singleton] at hax
        exact hx (hax ▸ ha)
      have h3 := ih (seen ++ [x]) h2
      simpa [dedupKeepFirst, hx, List.append_assoc] using h3

/-- The starting SAN list (lines 116-123) before user-supplied SANs. -/
theorem build_san_list_nil (hostname : String) :
    build_san_list hostname [] =
      if hostname = "localhost" then
        [GeneralName.DNSName hostname, GeneralName.IPAddress ipv4_loopback,
         GeneralName.IPAddress ipv6_loopback]
      else [GeneralName.DNSName hostname] := by
  simp only [build_san_list, List.foldl_nil]
  split <;> rfl

/-- The full SAN resolution: starting list, then first-occurrence
deduplicated parsed extras. -/
theorem build_san_list_eq (hostname : String) (sans : List String) :
    build_san_list hostname sans =
      build_san_list hostname [] ++
        dedupKeepFirst (build_san_list hostname []) (sans.map parse_san) := by
  simp only [build_san_list, List.foldl_nil]
  exact foldl_addSan_eq sans _

/-- The subject common name is always the head of the SAN list. -/
theorem hostname_mem_build_san_list (hostname : String) (sans : List String) :
    GeneralName.DNSName hostname ∈ build_san_list hostname sans := by
  rw [build_san_list_eq, build_san_list_nil]
  apply List.mem_append_left
  split <;> simp

/-- Claim C1: the SAN resolver classifies each raw string through the IP
parser (IPAddress on success, DNSName on failure, no other validation and
no error), processes the strings in input order, and appends an entry
only when no structurally equal entry is present, so the result is the
starting list followed by the first-occurrence deduplication of the
parsed entries with insertion order preserved; on hostname "example.com"
with extras ["example.com", "10.0.0.5", "*.example.com"] the result is
exactly [DNSName example.com, IPAddress 10.0.0.5, DNSName
*.example.com]. -/
theorem spec_c1 :
    (∀ s : String,
      parse_san s = ((ip_address s).map GeneralName.IPAddress).getD (GeneralName.DNSName s))
  ∧ (∀ (hostname : String) (sans : List String),
      build_san_list hostname sans =
        build_san_list hostname [] ++
          dedupKeepFirst (build_san_list hostname []) (sans.map parse_san))
  ∧ build_san_list "example.com" ["example.com", "10.0.0.5", "*.example.com"] =
      [GeneralName.DNSName "example.com",
       GeneralName.IPAddress (IPAddr.v4 167772165),
       GeneralName.DNSName "*.example.com"] := by
  refine ⟨?_, build_san_list_eq, by rfl⟩
  intro s
  unfold parse_san
  cases ip_address s <;> simp

/-- Claim C2: with no extra SANs, the resolved list contains the loopback
IPv4 and IPv6 entries exactly when the hostname is the exact string
"localhost"; when it is, they directly follow the DNS entry whatever the
extras are, and with no extras the list is exactly [DNSName(localhost),
IPAddress(127.0.0.1), IPAddress(::1)]. -/
theorem spec_c2 :
    (∀ hostname : String,
      (GeneralName.IPAddress ipv4_loopback ∈ build_san_list hostname [] ∧
       GeneralName.IPAddress ipv6_loopback ∈ build_san_list hostname []) ↔
        hostname = "localhost")
  ∧ (∀ (hostname : String) (sans : List String), hostname = "localhost" →
      (build_san_list hostname sans).take 3 =
        [GeneralName.DNSName "localhost", GeneralName.IPAddress ipv4_loopback,
         GeneralName.IPAddress ipv6_loopback])
  ∧ build_san_list "localhost" [] =
      [GeneralName.DNSName "localhost", GeneralName.IPAddress ipv4_loopback,
       GeneralName.IPAddress ipv6_loopback] := by
  refine ⟨?_, ?_, by rfl⟩
  · intro hostname
    constructor
    · rintro ⟨h4, _⟩
      by_contra hne
      rw [build_san_list_nil, if_neg hne] at h4
      rw [List.mem_singleton] at h4
      exact GeneralName.noConfusion h4
    · intro he
      subst he
      constructor <;> decide
  · intro hostname sans he
    subst he
    rw [show build_san_list "localhost" sans =
          List.foldl addSan
            [GeneralName.DNSName "localhost", GeneralName.IPAddress ipv4_loopback,
             GeneralName.IPAddress ipv6_loopback] sans from rfl,
        foldl_addSan_eq]
    rfl

theorem spec_c2_witness :
    (build_san_list "localhost" ["example.org"]).take 3 =
      [GeneralName.DNSName "localhost", GeneralName.IPAddress ipv4_loopback,
       GeneralName.IPAddress ipv6_loopback] :=
  spec_c2.2.1 "localhost" ["example.org"] rfl

/-- Claim C7: the resolved SAN list never contains two structurally equal
entries, and deduplication is by structural equality with no case
normalization of DNS names: with hostname "localhost" and extra SAN
"LOCALHOST", both DNSName(localhost) and DNSName(LOCALHOST) appear. -/
theorem spec_c7 :
    (∀ (hostname : String) (sans : List String), (build_san_list hostname sans).Nodup)
  ∧ build_san_list "localhost" ["LOCALHOST"] =
      [GeneralName.DNSName "localhost", GeneralName.IPAddress ipv4_loopback,
       GeneralName.IPAddress ipv6_loopback, GeneralName.DNSName "LOCALHOST"] := by
  refine ⟨?_, by rfl⟩
  intro hostname sans
  rw [build_san_list_eq]
  apply nodup_dedup_append
  rw [build_san_list_nil]
  split
  · next he => subst he; decide
  · simp

/-- Key generation with the fixed exponent succeeds exactly on the sizes
the library accepts, returning a key of the requested size. -/
theorem generate_private_key_ok (key_size : Nat) (h : 512 ≤ key_size) :
    generate_private_key 65537 key_size = Except.ok ⟨key_size⟩ := by
  unfold generate_private_key
  rw [if_neg (by simp), if_neg (by omega)]

/-- Inversion for key generation: a returned key has the requested size. -/
theorem generate_private_key_ok_inv (key_size : Nat) (key : KeyPair)
    (h : generate_private_key 65537 key_size = Except.ok key) : key = ⟨key_size⟩ := by
  unfold generate_private_key at h
  split at h
  · exact absurd h (by simp)
  · split at h
    · exact absurd h (by simp)
    · simp only [Except.ok.injEq] at h
      exact h.symm

/-- The name construction succeeds whenever the country value is two
UTF-8 bytes, producing the source-order attribute list. -/
theorem x509_Name_ok (args : CertArgs) (h : args.country.utf8ByteSize = 2) :
    x509_Name args = Except.ok (nameList args) := by
  unfold x509_Name nameAttribute
  rw [if_neg (by simp [h])]
  rfl

/-- Inversion for the name construction: a returned name is the
source-order attribute list. -/
theorem x509_Name_ok_inv (args : CertArgs) (subject : List (AttrType × String))
    (h : x509_Name args = Except.ok subject) : subject = nameList args := by
  unfold x509_Name nameAttribute at h
  split at h
  · exact Except.noConfusion h
  · have h2 : (Except.ok (nameList args) : Except String (List (AttrType × String))) =
      Except.ok subject := h
    simp only [Except.ok.injEq] at h2
    exact h2.symm

/-- Inversion for certificate generation: a successfully generated
certificate is exactly the record assembled by the builder chain. -/
theorem generate_certificate_ok_inv (args : CertArgs) (t1 t2 : Int) (serial : Nat)
    (cert : Certificate) (h : generate_certificate args t1 t2 serial = Except.ok cert) :
    cert =
      { subject := nameList args
        issuer := nameList args
        public_key_size := args.size
        serial_number := serial
        not_valid_before := t1
        not_valid_after := t2 + args.days * 86400
        extensions :=
          [⟨ExtensionValue.subjectAlternativeName (build_san_list args.hostname args.sans),
            false⟩,
           ⟨ExtensionValue.keyUsage certKeyUsage, true⟩] } := by
  simp only [generate_certificate] at h
  split at h
  · exact absurd h (by simp)
  · next key hkey =>
    split at h
    · exact absurd h (by simp)
    · next subject hsubj =>
      split at h
      · exact absurd h (by simp)
      · split at h
        · exact absurd h (by simp)
        · split at h
          · exact absurd h (by simp)
          · have hk := generate_private_key_ok_inv args.size key hkey
            have hs := x509_Name_ok_inv args subject hsubj
            subst hk hs
            simp only [Except.ok.injEq] at h
            exact h.symm

/-- Claim C3 counterexample: when the second clock reading is one second
after the first, the generated certificate's validity duration exceeds
the requested 365 days by one second. -/
theorem spec_c3_counterexample :
    (generate_certificate sampleArgs 0 1 1).map
        (fun cert => cert.not_valid_after - cert.not_valid_before) =
      Except.ok 31536001 ∧ (31536001 : Int) ≠ sampleArgs.days * 86400 := by
  exact ⟨rfl, by decide⟩

/-- Claim C3 (amended): lines 148-149 read the clock twice, so
notAfter − notBefore equals the requested day count plus however much the
clock advanced between the two readings; it equals the requested day
count exactly when the two readings coincide. -/
theorem spec_c3_amended (args : CertArgs) (t1 t2 : Int) (serial : Nat) (cert : Certificate)
    (h : generate_certificate args t1 t2 serial = Except.ok cert) :
    cert.not_valid_after - cert.not_valid_before = args.days * 86400 + (t2 - t1) ∧
    (t2 = t1 → cert.not_valid_after - cert.not_valid_before = args.days * 86400) := by
  have hc := generate_certificate_ok_inv args t1 t2 serial cert h
  subst hc
  constructor
  · simp only []
    ring
  · intro he
    subst he
    simp only []
    ring

theorem spec_c3_amended_witness :
    sampleCert.not_valid_after - sampleCert.not_valid_before = sampleArgs.days * 86400 :=
  (spec_c3_amended sampleArgs 0 0 1 sampleCert sample_ok).2 rfl

/-- Arguments identical to the defaults except for a zero validity
period. -/
def argsDaysZero : CertArgs := { sampleArgs with days := 0 }

/-- Arguments identical to the defaults except for a negative validity
period. -/
def argsDaysNeg : CertArgs := { sampleArgs with days := -5 }

/-- Claim C4 counterexample: requesting days = 0 (a non-positive day
count) does not fail — a certificate is produced. -/
theorem spec_c4_counterexample :
    argsDaysZero.days ≤ 0 ∧ (generate_certificate argsDaysZero 0 0 1).isOk = true := by
  exact ⟨by decide, rfl⟩

/-- Claim C4 (amended): the source performs no day-count validation of
its own.  A negative day count fails — through the certificate builder's
notAfter-before-notBefore check (a generic error, caught and mapped to
exit 1), provided the clock advances less than the magnitude of the
requested negative duration between the two readings — while a zero day
count succeeds and produces a certificate with an empty validity
window. -/
theorem spec_c4_amended (args : CertArgs) (t1 t2 : Int) (serial : Nat) :
    (args.days < 0 → t2 - t1 < -args.days * 86400 →
      (generate_certificate args t1 t2 serial).isOk = false)
  ∧ (args.days = 0 → 512 ≤ args.size → args.country.utf8ByteSize = 2 →
      earliest_utc_time ≤ t1 → t1 ≤ t2 →
      (generate_certificate args t1 t2 serial).isOk = true) := by
  constructor
  · intro hd hc
    simp only [generate_certificate]
    split
    · rfl
    · split
      · rfl
      · split
        · rfl
        · split
          · rfl
          · rw [if_pos (by omega)]
            rfl
  · intro hd hsize hcountry ht1 ht12
    simp only [generate_certificate, generate_private_key_ok args.size hsize,
      x509_Name_ok args hcountry]
    rw [hd, if_neg (by omega), if_neg (by omega), if_neg (by omega)]
    rfl

theorem spec_c4_amended_witness :
    (generate_certificate argsDaysNeg 0 0 1).isOk = false ∧
    (generate_certificate argsDaysZero 0 0 1).isOk = true :=
  ⟨(spec_c4_amended argsDaysNeg 0 0 1).1 (by decide) (by decide),
   (spec_c4_amended argsDaysZero 0 0 1).2 (by decide) (by decide) (by decide) (by decide)
     (by decide)⟩

/-- Arguments identical to the defaults except for a 512-bit key size. -/
def argsSize512 : CertArgs := { sampleArgs with size := 512 }

/-- Claim C5 counterexample: a 512-bit key request (below the claimed
1024-bit safe minimum) does not fail — the key pair is generated and the
whole certificate generation succeeds. -/
theorem spec_c5_counterexample :
    generate_private_key 65537 512 = Except.ok ⟨512⟩ ∧
    (generate_certificate argsSize512 0 0 1).isOk = true := by
  exact ⟨rfl, rfl⟩

/-- Claim C5 (amended): with the fixed public exponent 65537, key
generation fails exactly for sizes below the library's 512-bit minimum;
there is no 1024-bit check anywhere, so 512 through 1023 succeed. -/
theorem spec_c5_amended (key_size : Nat) :
    (generate_private_key 65537 key_size).isOk = true ↔ 512 ≤ key_size := by
  unfold generate_private_key
  rw [if_neg (by simp)]
  split
  · next hlt => exact iff_of_false (by simp [Except.isOk, Except.toBool]) (by omega)
  · next hge => exact iff_of_true rfl (by omega)

/-- Claim C6: every generated certificate carries exactly the two
extensions the source adds — SubjectAlternativeName, non-critical, and
KeyUsage, critical, with digitalSignature and keyEncipherment set and
every other bit false. -/
theorem spec_c6 (args : CertArgs) (t1 t2 : Int) (serial : Nat) (cert : Certificate)
    (h : generate_certificate args t1 t2 serial = Except.ok cert) :
    cert.extensions =
      [⟨ExtensionValue.subjectAlternativeName (build_san_list args.hostname args.sans),
        false⟩,
       ⟨ExtensionValue.keyUsage
          { digital_signature := true
            key_encipherment := true
            content_commitment := false
            data_encipherment := false
            key_agreement := false
            key_cert_sign := false
            crl_sign := false
            encipher_only := false
            decipher_only := false }, true⟩] := by
  have hc := generate_certificate_ok_inv args t1 t2 serial cert h
  subst hc
  rfl

theorem spec_c6_witness :
    sampleCert.extensions =
      [⟨ExtensionValue.subjectAlternativeName
          (build_san_list sampleArgs.hostname sampleArgs.sans), false⟩,
       ⟨ExtensionValue.keyUsage
          { digital_signature := true
            key_encipherment := true
            content_commitment := false
            data_encipherment := false
            key_agreement := false
            key_cert_sign := false
            crl_sign := false
            encipher_only := false
            decipher_only := false }, true⟩] :=
  spec_c6 sampleArgs 0 0 1 sampleCert sample_ok

/-- Claim C8: the hostname always appears as a DNSName entry in the SAN
list of every generated certificate, whatever the user-supplied SANs. -/
theorem spec_c8 (args : CertArgs) (t1 t2 : Int) (serial : Nat) (cert : Certificate)
    (h : generate_certificate args t1 t2 serial = Except.ok cert) :
    GeneralName.DNSName args.hostname ∈ sanListOf cert := by
  have hc := generate_certificate_ok_inv args t1 t2 serial cert h
  subst hc
  simpa [sanListOf] using hostname_mem_build_san_list args.hostname args.sans

theorem spec_c8_witness :
    GeneralName.DNSName sampleArgs.hostname ∈ sanListOf sampleCert :=
  spec_c8 sampleArgs 0 0 1 sampleCert sample_ok

/-- Claim C9: every generated certificate's subject is the ordered
attribute sequence country, state/province, locality, organization,
common-name built from the distinguished-name fields and the hostname,
and its issuer is identical to its subject. -/
theorem spec_c9 (args : CertArgs) (t1 t2 : Int) (serial : Nat) (cert : Certificate)
    (h : generate_certificate args t1 t2 serial = Except.ok cert) :
    cert.subject = nameList args ∧ cert.issuer = cert.subject := by
  have hc := generate_certificate_ok_inv args t1 t2 serial cert h
  subst hc
  exact ⟨rfl, rfl⟩

theorem spec_c9_witness :
    sampleCert.subject = nameList sampleArgs ∧ sampleCert.issuer = sampleCert.subject :=
  spec_c9 sampleArgs 0 0 1 sampleCert sample_ok

/-- Outcome of a run of the output phase. -/
inductive RunOutcome where
  | success
  | failure
deriving DecidableEq, Repr

/-- Which of the two output files exist on disk after the run. -/
structure FsState where
  keyWritten : Bool
  certWritten : Bool
deriving DecidableEq, Repr

/-- Environment oracle: which of the three steps of the output phase
would raise if reached. -/
structure FailureOracle where
  signFails : Bool
  keyWriteFails : Bool
  certWriteFails : Bool
deriving DecidableEq, Repr

/-- The output phase of `generate_certificate` (lines 172-184) observed
at the file-system level, together with the catch-all handler in `main`
(lines 208-212): first the certificate is signed (line 172), then the
private key file is written (lines 175-180), then the certificate file
(lines 183-184).  The first step that raises aborts the run — later
steps never execute, files already written stay on disk — and the raise
is reported as a failing exit.  The steps are sequential `with open`
writes with no temporary file and no rename, so the pair of writes is
not atomic. -/
def runWriteTail (o : FailureOracle) : RunOutcome × FsState :=
  if o.signFails then (RunOutcome.failure, ⟨false, false⟩)
  else if o.keyWriteFails then (RunOutcome.failure, ⟨false, false⟩)
  else if o.certWriteFails then (RunOutcome.failure, ⟨true, false⟩)
  else (RunOutcome.success, ⟨true, true⟩)

/-- Claim C10 counterexample: a run whose signing step fails is a failing
run covered by the claim, yet it ends with the private key file NOT on
disk — signing (line 172) happens before the key write (line 175), not
after it. -/
theorem spec_c10_counterexample :
    (runWriteTail ⟨true, false, false⟩).1 = RunOutcome.failure ∧
    (runWriteTail ⟨true, false, false⟩).2.keyWritten = false := by
  exact ⟨rfl, rfl⟩

/-- Claim C10 (amended): the certificate file is written only after the
private key file in every run, and the two writes are not atomic as a
pair: when the certificate write fails after signing and the key write
succeeded, the run errors out with the key file on disk and the
certificate file absent; a signing failure, however, occurs before
either write, leaving neither file. -/
theorem spec_c10_amended (o : FailureOracle) :
    ((runWriteTail o).2.certWritten = true → (runWriteTail o).2.keyWritten = true)
  ∧ (o.signFails = false → o.keyWriteFails = false → o.certWriteFails = true →
      runWriteTail o = (RunOutcome.failure, ⟨true, false⟩))
  ∧ (o.signFails = true → runWriteTail o = (RunOutcome.failure, ⟨false, false⟩)) := by
  rcases o with ⟨s, k, c⟩
  revert s k c
  decide

theorem spec_c10_amended_witness :
    runWriteTail ⟨false, false, true⟩ = (RunOutcome.failure, ⟨true, false⟩) :=
  (spec_c10_amended ⟨false, false, true⟩).2.1 rfl rfl rfl

end Certfun
